import Mathlib

/-!
# UAE — verification of the Lead Discovery Pipeline and related components

Shallow embedding of the UAE repository's lead-generation subsystem:

* `src/agents/lead-generator.js` — the Lead Discovery Pipeline
  (query construction, scraping loop, mode selection, response parsing,
  contact materialization, activity events);
* the base agent's run-ledger writes (`completeRun` / `failRun`);
* provider resolution (`getScraper` in `src/providers/scraping/index.js`,
  `getLLM` in `src/providers/crm/index.js`);
* the agent registry (`getAgentRunner` in `src/agents/runner.js`) and the
  `agent_runs.agent_type` CHECK constraint of the schema.

JavaScript truthiness (`x || d` treats `undefined`, `''` and `0` as falsy)
is modelled explicitly by the `jsOr*` helpers below.  External library
calls (the scraper, the search backend, `JSON.parse`, the LLM response)
are modelled as function parameters, so every theorem quantifies over
their behaviour.
-/

namespace UAE

/-- JS `a || d` for a possibly-undefined string: `undefined` and `""` are falsy. -/
def jsOrS : Option String → String → String
  | some s, d => if s = "" then d else s
  | none, d => d

/-- JS `a || d` for a possibly-undefined number: `undefined` and `0` are falsy. -/
def jsOrN : Option Nat → Nat → Nat
  | some n, d => if n = 0 then d else n
  | none, d => d

/-- JS `a || d` on integer fields (`lead.relevance_score || 50`). -/
def jsOrI : Option Int → Int → Int
  | some n, d => if n = 0 then d else n
  | none, d => d

/-- JS `x || null` on a string field: `undefined` and `""` collapse to `null`. -/
def jsOrNull : Option String → Option String
  | some s => if s = "" then none else some s
  | none => none

/-- JS `x >= b` where `x` may be `undefined`/`null` (both compare false). -/
def jsGe (x : Option Int) (b : Int) : Bool :=
  match x with
  | some n => b ≤ n
  | none => false

/-! ## Run Ledger (base agent `completeRun` / `failRun`)

Both operations are single-row `UPDATE ... WHERE id = ?` statements with no
condition on the current status.  `completeRun` writes status, output,
tokens, provider and completion time; `failRun` writes status, an error
payload and completion time. -/

/-- The serialized `output_data` column: either `JSON.stringify(outputData)`
from a completion or `JSON.stringify({error: message})` from a failure. -/
inductive RunOutput
  | output (json : String)
  | errorOf (message : String)
deriving DecidableEq

/-- The columns of an `agent_runs` row that the terminal operations touch. -/
structure AgentRunRow where
  status : String
  output_data : Option RunOutput
  tokens_used : Int
  llm_provider : Option String
  completed_at : Option String
deriving DecidableEq

/-- The operation `completeRun(runId, outputData, tokensUsed)`: unconditional UPDATE setting
status, output_data, tokens_used, llm_provider and completed_at. -/
def completeRun (out : String) (tokensUsed : Int) (provider : String)
    (now : String) (r : AgentRunRow) : AgentRunRow :=
  { r with
    status := "completed"
    output_data := some (RunOutput.output out)
    tokens_used := tokensUsed
    llm_provider := some provider
    completed_at := some now }

/-- The operation `failRun(runId, error)`: unconditional UPDATE setting status, output_data
and completed_at (tokens_used and llm_provider are left untouched). -/
def failRun (message : String) (now : String) (r : AgentRunRow) : AgentRunRow :=
  { r with
    status := "failed"
    output_data := some (RunOutput.errorOf message)
    completed_at := some now }

/-- A terminal run-ledger operation together with its arguments. -/
inductive TermOp
  | complete (out : String) (tokensUsed : Int) (provider : String) (now : String)
  | fail (message : String) (now : String)

/-- Apply a terminal operation to the run row. -/
def applyTerm : TermOp → AgentRunRow → AgentRunRow
  | .complete out tok prov now, r => completeRun out tok prov now r
  | .fail msg now, r => failRun msg now r

/-! ## Provider resolution

`getScraper` / `getLLM` look the configured name up in an object literal of
provider classes and execute `new Provider()`.  Allocation of a fresh object
by `new` is modelled by an allocation counter threaded through each call:
the returned `objectId` is the counter value at call time. -/

/-- Allocation state: the id the next `new` expression will produce. -/
structure Alloc where
  next : Nat
deriving DecidableEq

/-- A constructed provider object: its class and its object identity. -/
structure ProviderInstance where
  className : String
  objectId : Nat
deriving DecidableEq

/-- The `providers` object literal of `src/providers/scraping/index.js`. -/
def scrapeProviderClass (name : String) : Option String :=
  List.lookup name
    [("firecrawl", "FirecrawlProvider"),
     ("browserbase", "BrowserbaseProvider"),
     ("basic", "BasicFetchProvider")]

/-- Resolution via `getScraper(providerOverride)`: name from
`providerOverride || process.env.SCRAPE_PROVIDER || 'basic'`; unknown names
throw; otherwise `new Provider()` constructs a fresh instance. -/
def getScraper (providerOverride : Option String)
    (envScrapeProvider : Option String) (st : Alloc) :
    Except String (ProviderInstance × Alloc) :=
  let name := jsOrS providerOverride (jsOrS envScrapeProvider "basic")
  match scrapeProviderClass name with
  | some cls => Except.ok ({ className := cls, objectId := st.next }, ⟨st.next + 1⟩)
  | none => Except.error ("Unknown scrape provider: " ++ name)

/-- The `providers` object literal of `src/providers/crm/index.js`. -/
def llmProviderClass (name : String) : Option String :=
  List.lookup name
    [("openai", "OpenAIProvider"),
     ("anthropic", "AnthropicProvider")]

/-- Resolution via `getLLM(providerOverride)`: name from
`providerOverride || process.env.LLM_PROVIDER || 'openai'`; unknown names
throw; otherwise `new Provider()` constructs a fresh instance. -/
def getLLM (providerOverride : Option String)
    (envLLMProvider : Option String) (st : Alloc) :
    Except String (ProviderInstance × Alloc) :=
  let name := jsOrS providerOverride (jsOrS envLLMProvider "openai")
  match llmProviderClass name with
  | some cls => Except.ok ({ className := cls, objectId := st.next }, ⟨st.next + 1⟩)
  | none => Except.error ("Unknown LLM provider: " ++ name)

/-! ## Agent registry (`src/agents/runner.js`) and schema CHECK constraint -/

/-- The six agent classes registered in the `agents` object literal. -/
inductive AgentClass
  | researcher | outreach | secretary | issue_scout | persuader | donor_closer
deriving DecidableEq

/-- The `agents` object literal: own properties of the registry. -/
def agents : List (String × AgentClass) :=
  [("researcher", AgentClass.researcher),
   ("outreach", AgentClass.outreach),
   ("secretary", AgentClass.secretary),
   ("issue_scout", AgentClass.issue_scout),
   ("persuader", AgentClass.persuader),
   ("donor_closer", AgentClass.donor_closer)]

/-- Dispatch via `getAgentRunner(agentType)`: look the type up in the registry; a missing
entry throws `Unknown agent type: ...`, otherwise the agent is constructed. -/
def getAgentRunner (agentType : String) : Except String AgentClass :=
  match agents.lookup agentType with
  | some a => Except.ok a
  | none => Except.error ("Unknown agent type: " ++ agentType)

/-- The schema's `CHECK (agent_type IN ('researcher','outreach','secretary',
'issue_scout','persuader','donor_closer'))` constraint on `agent_runs`. -/
def agentRunTypeCheck (t : String) : Bool :=
  t == "researcher" || t == "outreach" || t == "secretary" ||
  t == "issue_scout" || t == "persuader" || t == "donor_closer"

/-- Returns `true` exactly on the non-throwing results of a lookup. -/
def exceptOk {ε α : Type} : Except ε α → Bool
  | .ok _ => true
  | .error _ => false

/-! ## Lead Discovery Pipeline (`src/agents/lead-generator.js`)

### Data model -/

/-- The profile row fields the pipeline reads.  `service_offerings` and
`policy_pillars` hold the result of `parseJsonArray` on the stored columns
(the stored-text-to-list decoding is outside the verified claims). -/
structure Profile where
  id : String
  mode : String
  riding_name : Option String
  candidate_name : Option String
  candidate_party : Option String
  industry_context : Option String
  service_offerings : List String
  policy_pillars : List String
deriving DecidableEq

/-- The `input` object of `execute(runId, profile, input)`. -/
structure LeadInput where
  sources : Option (List String)
  keywords : Option (List String)
  max_leads : Option Nat
  recency : Option String
deriving DecidableEq

/-- A fetch task constructed by `buildSearchQueries`: either a `{url, type}`
or a `{search, type}` object. -/
structure Query where
  url : Option String
  search : Option String
  type : String
deriving DecidableEq

/-- One entry of the `DEFAULT_SOURCES` template tables. -/
structure SourceTemplate where
  search : String
  type : String
deriving DecidableEq

/-- The table `DEFAULT_SOURCES.business`. -/
def DEFAULT_SOURCES_business : List SourceTemplate :=
  [⟨"site:reddit.com \"{service}\" help needed 2025", "reddit"⟩,
   ⟨"site:reddit.com \"{service}\" recommendation 2025", "reddit"⟩,
   ⟨"site:nextdoor.com \"{service}\" looking for", "nextdoor"⟩,
   ⟨"\"{service}\" near me need help 2025", "google"⟩,
   ⟨"site:facebook.com \"{service}\" who do you recommend 2025", "facebook"⟩,
   ⟨"site:twitter.com \"{service}\" need help", "twitter"⟩,
   ⟨"\"{industry}\" emergency help needed today", "google"⟩,
   ⟨"site:yelp.com \"{industry}\" \"{location}\" recent reviews", "yelp"⟩]

/-- The table `DEFAULT_SOURCES.political`. -/
def DEFAULT_SOURCES_political : List SourceTemplate :=
  [⟨"site:reddit.com \"{riding}\" election 2025", "reddit"⟩,
   ⟨"site:reddit.com \"{policy}\" Canada opinion 2025", "reddit"⟩,
   ⟨"\"{riding}\" voters \"{policy}\" concerned 2025", "google"⟩,
   ⟨"site:twitter.com \"{candidate}\" \"{riding}\" 2025", "twitter"⟩,
   ⟨"\"{riding}\" community group \"{policy}\" 2025", "google"⟩,
   ⟨"site:facebook.com \"{riding}\" election discussion 2025", "facebook"⟩,
   ⟨"\"{candidate}\" \"{party}\" supporter 2025", "google"⟩]

/-! ### Stage A — query construction (`buildSearchQueries`) -/

/-- The `recencyTerms` object literal mapping the recency enum to a
search-engine date hint (`undefined` for a key not present). -/
def recencyTerms (r : String) : Option String :=
  List.lookup r
    [("1week", "past week"), ("1month", "past month"),
     ("3months", "2025"), ("6months", "2025"), ("any", "")]

/-- The hint `recencyTerms[recency] || '2025'` — note that the
empty string stored under `'any'` is falsy in JS, so it too falls through
to the `'2025'` default. -/
def dateSuffix (recency : String) : String :=
  jsOrS (recencyTerms recency) "2025"

/-- JS `s.substring(0, n)` (UTF-16 units modelled as chars). -/
def jsSubstrTo (s : String) (n : Nat) : String :=
  ⟨s.data.take n⟩

/-- Drop the first `n` chars (used for fence stripping). -/
def dropChars (s : String) (n : Nat) : String :=
  ⟨s.data.drop n⟩

/-- Drop the last `n` chars. -/
def dropLastChars (s : String) (n : Nat) : String :=
  ⟨s.data.take (s.data.length - n)⟩

/-- Char-list prefix test. -/
def hasPre : List Char → List Char → Bool
  | [], _ => true
  | _ :: _, [] => false
  | p :: ps, c :: cs => p == c && hasPre ps cs

/-- JS `s.startsWith(pre)`. -/
def jsStartsWith (s pre : String) : Bool :=
  hasPre pre.data s.data

/-- JS `s.endsWith(suf)`. -/
def jsEndsWith (s suf : String) : Bool :=
  hasPre suf.data.reverse s.data.reverse

/-- The whitespace class of JS `String.trim` (the characters that occur in
this code base's data). -/
def isJsSpace (c : Char) : Bool :=
  c == ' ' || c == '\t' || c == '\n' || c == '\r'

/-- JS `s.trim()`. -/
def jsTrim (s : String) : String :=
  ⟨((s.data.dropWhile isJsSpace).reverse.dropWhile isJsSpace).reverse⟩

/-- The cleanup `tpl.search.replace(/ 2025$/, '')` — strip a hardcoded trailing year. -/
def stripYear (s : String) : String :=
  if jsEndsWith s " 2025" then dropLastChars s 5 else s

/-- Replace the first occurrence of `pat` (non-empty at all call sites)
in a char list. -/
def replFirstCL (pat repl : List Char) : List Char → List Char
  | [] => []
  | c :: cs =>
      if hasPre pat (c :: cs) then repl ++ (c :: cs).drop pat.length
      else c :: replFirstCL pat repl cs

/-- JS `String.replace` with a string pattern: replace the first occurrence
only (all call sites pass a non-empty literal pattern). -/
def replaceFirst (s pat repl : String) : String :=
  ⟨replFirstCL pat.data repl.data s.data⟩

/-- Char-list substring test. -/
def hasSub (pat : List Char) : List Char → Bool
  | [] => pat.isEmpty
  | c :: cs => hasPre pat (c :: cs) || hasSub pat cs

/-- JS `s.includes(pat)`. -/
def strIncludes (s pat : String) : Bool :=
  hasSub pat.data s.data

/-- The context `(profile.industry_context || '').split('.')[0].substring(0, 40)`. -/
def industryContextOf (p : Profile) : String :=
  jsSubstrTo ⟨(jsOrS p.industry_context "").data.takeWhile (fun c => c ≠ '.')⟩ 40

/-- Expansion of one political template: one query per policy pillar
(up to two; the literal `'policy'` when the profile has none). -/
def expandPolitical (p : Profile) (suffix : String) (tpl : SourceTemplate) :
    List Query :=
  let search := stripYear tpl.search
  (if p.policy_pillars.isEmpty then ["policy"] else p.policy_pillars.take 2).map
    (fun pillar =>
      let q := replaceFirst (replaceFirst (replaceFirst (replaceFirst search
                 "{riding}" (jsOrS p.riding_name ""))
                 "{policy}" pillar)
                 "{candidate}" (jsOrS p.candidate_name ""))
                 "{party}" (jsOrS p.candidate_party "")
      let q := if suffix = "" then q else q ++ " " ++ suffix
      { url := none, search := some (jsTrim q), type := tpl.type })

/-- Expansion of one business template: one query per service offering
(up to two; the truncated industry context when the profile has none). -/
def expandBusiness (p : Profile) (suffix : String) (tpl : SourceTemplate) :
    List Query :=
  let search := stripYear tpl.search
  let industryContext := industryContextOf p
  (if p.service_offerings.isEmpty then [industryContext]
   else p.service_offerings.take 2).map
    (fun svc =>
      let q := replaceFirst (replaceFirst (replaceFirst search
                 "{service}" svc)
                 "{industry}" industryContext)
                 "{location}" ""
      let q := if suffix = "" then q else q ++ " " ++ suffix
      { url := none, search := some (jsTrim q), type := tpl.type })

/-- The `queries` array of `buildSearchQueries` before deduplication:
user URLs, then expanded default templates, then recency-suffixed
user keywords. -/
def rawSearchQueries (p : Profile) (keywords : Option (List String))
    (sources : Option (List String)) (recency : String) : List Query :=
  let suffix := dateSuffix recency
  let urlQueries := ((sources.getD []).filter (fun u => u ≠ "")).map
    (fun u => { url := some u, search := none, type := "user_source" : Query })
  let isPolitical := p.mode == "political"
  let templateQueries :=
    if isPolitical then (DEFAULT_SOURCES_political.map (expandPolitical p suffix)).flatten
    else (DEFAULT_SOURCES_business.map (expandBusiness p suffix)).flatten
  let keywordQueries := ((keywords.getD []).filter (fun k => k ≠ "")).map
    (fun k =>
      let q := if suffix ≠ "" ∧ ¬(strIncludes k "2025" = true)
                  ∧ ¬(strIncludes k "week" = true) ∧ ¬(strIncludes k "month" = true)
               then k ++ " " ++ suffix else k
      { url := none, search := some q, type := "keyword" : Query })
  urlQueries ++ templateQueries ++ keywordQueries

/-- The identifying key of a task used by the dedup filter:
`q.url || q.search`. -/
def qkey (q : Query) : String :=
  jsOrS q.url (jsOrS q.search "")

/-- The `queries.filter` pass with the mutable `seen` Set, as a recursion
carrying the set of keys seen so far. -/
def dedupGo : List Query → List String → List Query
  | [], _ => []
  | q :: qs, seen =>
      if qkey q ∈ seen then dedupGo qs seen
      else q :: dedupGo qs (qkey q :: seen)

/-- Stage A entry point `buildSearchQueries(profile, keywords, sources, recency)`. -/
def buildSearchQueries (p : Profile) (keywords : Option (List String))
    (sources : Option (List String)) (recency : String) : List Query :=
  dedupGo (rawSearchQueries p keywords sources recency) []

/-- Dedup as the spec words it (for C7): keep each first occurrence, drop
every later task whose key equals an earlier one, preserve order.
Modelled from the spec: "Deduplicate by the task's identifying key before
execution — first occurrence wins." -/
def specDedupFirstWins : List Query → List Query
  | [] => []
  | q :: qs => q :: specDedupFirstWins (qs.filter (fun q2 => qkey q2 ≠ qkey q))
termination_by l => l.length
decreasing_by
  simp only [List.length_cons]
  exact Nat.lt_succ_of_le (List.length_filter_le _ _)

/-! ### Stage B — fetch execution (the scraping loop of `execute`) -/

/-- The value a `scraper.scrape(url)` call resolves to. -/
structure ScrapeResult where
  content : String
deriving DecidableEq

/-- One element of the array a `scraper.search(query)` call resolves to. -/
structure SearchItem where
  url : Option String
  title : Option String
  snippet : Option String
  description : Option String
  content : Option String
  markdown : Option String
deriving DecidableEq

/-- One element pushed onto `allScrapedContent`. -/
structure ScrapedItem where
  source : String
  source_type : String
  content : String
deriving DecidableEq

/-- The text `r.content || r.snippet || r.description || r.markdown || ''`. -/
def searchItemText (r : SearchItem) : String :=
  jsOrS r.content (jsOrS r.snippet (jsOrS r.description (jsOrS r.markdown "")))

/-- The `for (const r of results)` body of the search branch: the item
pushed for one search result, when its text is long enough. -/
def searchHit (q : Query) (r : SearchItem) : Option ScrapedItem :=
  if 20 < (searchItemText r).length then
    some { source := jsOrS r.url (jsOrS q.search ""),
           source_type := q.type,
           content := jsSubstrTo ((jsOrS r.title "") ++ ": " ++ searchItemText r) 2000 }
  else none

/-- The `try` body for one task: the items it pushes and the number of
`scrapeSuccesses++` increments, or the thrown error message.  The scraper
and search backends are oracles (`Except.error` models a thrown call). -/
def runTask (scrape : String → Except String ScrapeResult)
    (search : String → Except String (List SearchItem)) (q : Query) :
    Except String (List ScrapedItem × Nat) :=
  if jsOrS q.url "" ≠ "" then
    match scrape (jsOrS q.url "") with
    | .error m => .error m
    | .ok result =>
        if result.content ≠ "" ∧ 50 < result.content.length then
          .ok ([{ source := jsOrS q.url "", source_type := q.type,
                  content := jsSubstrTo result.content 5000 }], 1)
        else .ok ([], 0)
  else if jsOrS q.search "" ≠ "" then
    match search (jsOrS q.search "") with
    | .error m => .error m
    | .ok results =>
        if 0 < results.length then
          .ok (results.filterMap (searchHit q),
               (results.filterMap (searchHit q)).length)
        else .ok ([], 0)
  else .ok ([], 0)

/-- The label `(query.url || query.search || '').substring(0, 60)`. -/
def taskLabel (q : Query) : String :=
  jsSubstrTo (jsOrS q.url (jsOrS q.search "")) 60

/-- The `for (const query of searchQueries)` loop: accumulates
`allScrapedContent`, `scrapeSuccesses` and `scrapeErrors`; a thrown task
contributes only its labelled error message and the loop continues. -/
def scrapeLoop (scrape : String → Except String ScrapeResult)
    (search : String → Except String (List SearchItem)) :
    List Query → List ScrapedItem × Nat × List String
  | [] => ([], 0, [])
  | q :: qs =>
      let rest := scrapeLoop scrape search qs
      match runTask scrape search q with
      | .ok (items, n) => (items ++ rest.1, n + rest.2.1, rest.2.2)
      | .error m => (rest.1, rest.2.1, (taskLabel q ++ ": " ++ m) :: rest.2.2)

/-! ### Stage D — extraction / response parsing (`generateLeads`) -/

/-- One element of the JSON array the model is asked to return. -/
structure Lead where
  first_name : Option String
  name : Option String
  last_name : Option String
  email : Option String
  phone : Option String
  social_handle : Option String
  profile_url : Option String
  source : Option String
  company : Option String
  hook : Option String
  context : Option String
  post_date : Option String
  relevance_score : Option Int
  issues : Option (List String)
  tags : Option (List String)
deriving DecidableEq

/-- The shape of a parsed JSON value, as far as `generateLeads` inspects it:
an array of lead objects, or anything that fails `Array.isArray`. -/
inductive Json
  | arr (leads : List Lead)
  | nonArray
deriving DecidableEq

/-- The replace `text.replace(/^```json?\n?/, '')`: strips a leading "```jso",
an optional "n" and an optional newline. -/
def stripLeadFence (t : String) : String :=
  if jsStartsWith t "```json\n" then dropChars t 8
  else if jsStartsWith t "```json" then dropChars t 7
  else if jsStartsWith t "```jso\n" then dropChars t 7
  else if jsStartsWith t "```jso" then dropChars t 6
  else t

/-- The replace `text.replace(/\n?```$/, '')`. -/
def stripTrailFence (t : String) : String :=
  if jsEndsWith t "\n```" then dropLastChars t 4
  else if jsEndsWith t "```" then dropLastChars t 3
  else t

/-- The response cleaning of `generateLeads`: trim, then strip the fence
wrappers when the trimmed text starts with a code fence. -/
def cleanResponse (raw : String) : String :=
  let text := jsTrim raw
  if jsStartsWith text "```" then stripTrailFence (stripLeadFence text) else text

/-- The tail of `generateLeads`: parse the cleaned response (`none` models a
`JSON.parse` throw), return the array truncated to `maxLeads`, and `[]` on
a parse failure or a non-array value. -/
def parseLeads (parseJson : String → Option Json) (raw : String)
    (maxLeads : Nat) : List Lead :=
  match parseJson (cleanResponse raw) with
  | some (Json.arr leads) => leads.take maxLeads
  | some Json.nonArray => []
  | none => []

/-! ### Stage E — materialization (the contact-insertion loop of `execute`) -/

/-- The columns of the `contacts` INSERT. -/
structure Contact where
  profile_id : String
  first_name : String
  last_name : String
  email : Option String
  phone : Option String
  social_handle : Option String
  profile_url : Option String
  source : String
  company : Option String
  lead_score : Int
  lead_status : String
  riding : Option String
  voter_intent : String
  donor_intent : String
  issues_care : Option (List String)
  support_level : Int
  tags : List String
  notes : Option String
deriving DecidableEq

/-- The row inserted for one lead (the `db.prepare(...).run(...)` call). -/
def makeContact (p : Profile) (mode : String) (lead : Lead) : Contact :=
  let isPolitical := p.mode == "political"
  { profile_id := p.id
    first_name := jsOrS lead.first_name (jsOrS lead.name "Unknown")
    last_name := jsOrS lead.last_name ""
    email := jsOrNull lead.email
    phone := jsOrNull lead.phone
    social_handle := jsOrNull lead.social_handle
    profile_url := jsOrNull lead.profile_url
    source := jsOrS lead.source
      (if mode == "ai_prospecting" then "ai_prospecting" else "web_scrape")
    company := jsOrNull lead.company
    lead_score := jsOrI lead.relevance_score 50
    lead_status :=
      if isPolitical then "cold"
      else if jsGe lead.relevance_score 70 then "warm" else "cold"
    riding := if isPolitical then jsOrNull p.riding_name else none
    voter_intent := if isPolitical then "unknown" else "unknown"
    donor_intent := if isPolitical then "none" else "none"
    issues_care := lead.issues
    support_level := jsOrI lead.relevance_score 0
    tags := lead.tags.getD ["lead_generator", mode]
    notes := jsOrNull (some (jsOrS lead.hook (jsOrS lead.context ""))) }

/-! ### The whole `execute` run as a pure function -/

/-- One `emitActivity` call. -/
structure Event where
  eventType : String
  title : String
  detail : Option String
deriving DecidableEq

/-- The score text `${lead.relevance_score || '?'}` in the `lead_found` detail. -/
def scoreText (x : Option Int) : String :=
  match x with
  | some n => if n = 0 then "?" else toString n
  | none => "?"

/-- The observable outcome of one `execute` run. -/
structure PipelineResult where
  contacts : List Contact
  mode : String
  status : String
  events : List Event
  scrapeErrors : List String
  sources_scanned : Nat
  sources_successful : Nat
  leads_found : Nat
deriving DecidableEq

/-- The query list of a run: `buildSearchQueries(profile, keywords, sources,
recencyFilter)` with `recencyFilter = recency || (political ? '3months'
: '1week')`. -/
def pipelineQueries (p : Profile) (input : LeadInput) : List Query :=
  buildSearchQueries p input.keywords input.sources
    (jsOrS input.recency (if p.mode == "political" then "3months" else "1week"))

/-- The run `execute(runId, profile, input)` on its non-throwing path, as a pure
function of the profile, the input, the scraper/search oracles, the
`JSON.parse` oracle and the LLM response text.  Produces the created
contacts, the chosen mode, the terminal run status, the emitted activity
events and the completion payload counters. -/
def executePipeline (p : Profile) (input : LeadInput)
    (scrape : String → Except String ScrapeResult)
    (search : String → Except String (List SearchItem))
    (parseJson : String → Option Json) (llmResponse : String) :
    PipelineResult :=
  let maxLeads := jsOrN input.max_leads 10
  let searchQueries := pipelineQueries p input
  let startEvents : List Event :=
    [{ eventType := "agent_start", title := "Lead Generator started",
       detail := some ("Target: " ++ toString maxLeads ++ " leads") },
     { eventType := "scanning",
       title := "Querying " ++ toString searchQueries.length ++ " sources",
       detail := some (String.intercalate ", "
         ((searchQueries.take 3).map (fun q => jsOrS q.search (jsOrS q.url "")))
         ++ "...") }]
  let scraped := scrapeLoop scrape search searchQueries
  let allScrapedContent := scraped.1
  let scrapeSuccesses := scraped.2.1
  let scrapeErrors := scraped.2.2
  let errorEvents : List Event :=
    if scrapeErrors.isEmpty then []
    else [{ eventType := "scrape_errors",
            title := toString scrapeErrors.length ++ " source(s) failed to scrape",
            detail := some (String.intercalate " | " (scrapeErrors.take 3)) }]
  let hasScrapedData := !allScrapedContent.isEmpty && decide (0 < scrapeSuccesses)
  let mode := if hasScrapedData then "scraped" else "ai_prospecting"
  let analyzingEvents : List Event :=
    [{ eventType := "analyzing",
       title :=
         if hasScrapedData then
           "Analyzing " ++ toString allScrapedContent.length ++ " results with AI"
         else "AI Prospecting Mode — generating leads from profile intelligence",
       detail := none }]
  let leads := parseLeads parseJson llmResponse maxLeads
  let contacts := leads.map (makeContact p mode)
  let leadEvents : List Event := leads.map (fun lead =>
    { eventType := "lead_found",
      title := jsTrim ("Lead: " ++ jsOrS lead.first_name (jsOrS lead.name "Unknown")
                ++ " " ++ jsOrS lead.last_name ""),
      detail := some ("Score: " ++ scoreText lead.relevance_score ++ "/100 | "
                      ++ jsSubstrTo (jsOrS lead.hook "") 100) })
  let completeEvents : List Event :=
    [{ eventType := "agent_complete",
       title := "Done: " ++ toString contacts.length ++ " leads added to contacts",
       detail := some (if mode == "ai_prospecting"
         then "Used AI prospecting (add Firecrawl API key for live web scraping)"
         else "Scraped " ++ toString scrapeSuccesses ++ " sources") }]
  { contacts := contacts
    mode := mode
    status := "completed"
    events := startEvents ++ errorEvents ++ analyzingEvents
              ++ leadEvents ++ completeEvents
    scrapeErrors := scrapeErrors
    sources_scanned := searchQueries.length
    sources_successful := scrapeSuccesses
    leads_found := contacts.length }

/-! ### Concrete test fixtures (used by witnesses and counterexamples) -/

/-- A small business profile. -/
def bizProfile : Profile :=
  { id := "profile-1", mode := "business", riding_name := none,
    candidate_name := none, candidate_party := none,
    industry_context := some "Plumbing services in Austin. Fast response.",
    service_offerings := ["drain cleaning"], policy_pillars := [] }

/-- A run input asking for `max_leads = 0`. -/
def zeroLeadInput : LeadInput :=
  { sources := none, keywords := none, max_leads := some 0, recency := some "1week" }

/-- One extracted lead with relevance 80. -/
def oneLead : Lead :=
  { first_name := some "Alex", name := none, last_name := some "Rivera",
    email := none, phone := none, social_handle := some "u/alex_pipes",
    profile_url := none, source := some "Reddit r/plumbing", company := none,
    hook := some "need a plumber asap", context := none, post_date := none,
    relevance_score := some 80, issues := none, tags := none }

/-- A scraper whose every call throws (no API key configured). -/
def failScrape : String → Except String ScrapeResult :=
  fun _ => Except.error "FIRECRAWL_API_KEY not set"

/-- A search backend whose every call throws. -/
def failSearch : String → Except String (List SearchItem) :=
  fun _ => Except.error "FIRECRAWL_API_KEY not set"

/-- A `JSON.parse` oracle that yields a one-element lead array. -/
def oneLeadParse : String → Option Json := fun _ => some (Json.arr [oneLead])

/-- A `JSON.parse` oracle that always throws (non-JSON model response). -/
def noneParse : String → Option Json := fun _ => none

/-- The contact materialized from `oneLead` in AI-prospecting mode. -/
def cexContact : Contact := makeContact bizProfile "ai_prospecting" oneLead

/-! ## Helper lemmas -/

theorem parseLeads_length_le (pj : String → Option Json) (raw : String)
    (m : Nat) : (parseLeads pj raw m).length ≤ m := by
  unfold parseLeads
  cases pj (cleanResponse raw) with
  | none => simp
  | some j =>
    cases j with
    | arr leads => simp [List.length_take]
    | nonArray => simp

theorem runTask_ok_length (scrape : String → Except String ScrapeResult)
    (search : String → Except String (List SearchItem)) (q : Query)
    {items : List ScrapedItem} {n : Nat}
    (h : runTask scrape search q = Except.ok (items, n)) : n = items.length := by
  unfold runTask at h
  repeat' split at h
  all_goals (try exact Except.noConfusion h)
  all_goals
    (injection h with h1; injection h1 with h2 h3; subst h2; subst h3; simp)

theorem scrapeLoop_errors (scrape : String → Except String ScrapeResult)
    (search : String → Except String (List SearchItem)) (qs : List Query) :
    (scrapeLoop scrape search qs).2.2
      = qs.filterMap (fun q =>
          match runTask scrape search q with
          | .ok _ => none
          | .error m => some (taskLabel q ++ ": " ++ m)) := by
  induction qs with
  | nil => rfl
  | cons q qs ih =>
    simp only [scrapeLoop, List.filterMap_cons]
    cases h : runTask scrape search q with
    | ok v => obtain ⟨items, n⟩ := v; simp [h, ih]
    | error m => simp [h, ih]

theorem scrapeLoop_content (scrape : String → Except String ScrapeResult)
    (search : String → Except String (List SearchItem)) (qs : List Query) :
    (scrapeLoop scrape search qs).1
      = qs.flatMap (fun q =>
          match runTask scrape search q with
          | .ok (items, _) => items
          | .error _ => []) := by
  induction qs with
  | nil => rfl
  | cons q qs ih =>
    simp only [scrapeLoop, List.flatMap_cons]
    cases h : runTask scrape search q with
    | ok v => obtain ⟨items, n⟩ := v; simp [h, ih]
    | error m => simp [h, ih]

theorem scrapeLoop_successes (scrape : String → Except String ScrapeResult)
    (search : String → Except String (List SearchItem)) (qs : List Query) :
    (scrapeLoop scrape search qs).2.1 = (scrapeLoop scrape search qs).1.length := by
  induction qs with
  | nil => rfl
  | cons q qs ih =>
    simp only [scrapeLoop]
    cases h : runTask scrape search q with
    | ok v =>
      obtain ⟨items, n⟩ := v
      have hn := runTask_ok_length scrape search q h
      simp [h, ih, hn]
    | error m => simp [h, ih]

theorem dedupGo_sublist (qs : List Query) :
    ∀ seen : List String, (dedupGo qs seen).Sublist qs := by
  induction qs with
  | nil => intro seen; simp [dedupGo]
  | cons q qs ih =>
    intro seen
    by_cases h : qkey q ∈ seen
    · simp only [dedupGo, if_pos h]
      exact (ih seen).cons q
    · simp only [dedupGo, if_neg h]
      exact (ih _).cons₂ q

theorem specDedup_nil : specDedupFirstWins [] = [] := by
  rw [specDedupFirstWins.eq_def]

theorem specDedup_cons (q : Query) (qs : List Query) :
    specDedupFirstWins (q :: qs)
      = q :: specDedupFirstWins (qs.filter (fun q2 => qkey q2 ≠ qkey q)) := by
  rw [specDedupFirstWins.eq_def]

theorem dedupGo_eq_spec (qs : List Query) :
    ∀ seen : List String,
      dedupGo qs seen
        = specDedupFirstWins (qs.filter (fun q => qkey q ∉ seen)) := by
  induction qs with
  | nil => intro seen; simp [dedupGo, specDedup_nil]
  | cons q qs ih =>
    intro seen
    by_cases h : qkey q ∈ seen
    · simp only [dedupGo, if_pos h]
      rw [List.filter_cons_of_neg (by simp [h])]
      exact ih seen
    · simp only [dedupGo, if_neg h]
      rw [List.filter_cons_of_pos (by simp [h]), specDedup_cons,
        ih (qkey q :: seen), List.filter_filter]
      have hp : (fun q1 : Query => decide (qkey q1 ∉ qkey q :: seen))
          = (fun a : Query => decide (qkey a ≠ qkey q) && decide (qkey a ∉ seen)) := by
        funext a
        by_cases ha : qkey a = qkey q <;> by_cases hs : qkey a ∈ seen <;>
          simp [ha, hs]
      rw [hp]

/-- C8: the Run Ledger terminal operations `complete` and `fail` are
unconditional single-row writes with last-write-wins semantics: for any two
terminal operations invoked in sequence on any run row (including rows that
are already terminal — there is no single-transition guard), every column the
second operation writes holds exactly the value written by the second
operation, independent of the first operation and of the prior row state.
Both operations write `status`, `output_data` and `completed_at`; a second
`complete` additionally rewrites `tokens_used` and `llm_provider`, so the
row then agrees with the second call on every column, while a second `fail`
leaves `tokens_used` at its prior value. -/
theorem run_ledger_last_write_wins (o1 o2 : TermOp) (r r' : AgentRunRow) :
    ((applyTerm o2 (applyTerm o1 r)).status = (applyTerm o2 r').status
      ∧ (applyTerm o2 (applyTerm o1 r)).output_data = (applyTerm o2 r').output_data
      ∧ (applyTerm o2 (applyTerm o1 r)).completed_at = (applyTerm o2 r').completed_at)
    ∧ (match o2 with
       | .complete _ _ _ _ => applyTerm o2 (applyTerm o1 r) = applyTerm o2 r'
       | .fail _ _ => (applyTerm o2 (applyTerm o1 r)).tokens_used
            = (applyTerm o1 r).tokens_used) := by
  cases o2 <;> cases o1 <;> simp [applyTerm, completeRun, failRun]

/-- C9 (counterexample): repeated provider resolutions do NOT return the same
resolved provider instance.  Two consecutive `getScraper()` calls (and two
consecutive `getLLM()` calls) with identical configuration each execute
`new Provider()` and hand back distinct objects — there is no memoization. -/
theorem provider_not_memoized_counterexample :
    getScraper none none ⟨0⟩
      = Except.ok ({ className := "BasicFetchProvider", objectId := 0 }, ⟨1⟩)
    ∧ getScraper none none ⟨1⟩
      = Except.ok ({ className := "BasicFetchProvider", objectId := 1 }, ⟨2⟩)
    ∧ (decide (({ className := "BasicFetchProvider", objectId := 0 } : ProviderInstance)
        = { className := "BasicFetchProvider", objectId := 1 })) = false
    ∧ getLLM none none ⟨0⟩
      = Except.ok ({ className := "OpenAIProvider", objectId := 0 }, ⟨1⟩)
    ∧ getLLM none none ⟨1⟩
      = Except.ok ({ className := "OpenAIProvider", objectId := 1 }, ⟨2⟩) :=
  ⟨rfl, rfl, rfl, rfl, rfl⟩

/-- C9 (amended): for each provider family the provider name is read from
configuration (`override || env || default`), an unknown name fails fast with
a descriptive error, and each successful resolution constructs a fresh
provider instance — a repeated resolution with the same configuration returns
a new instance (object id bumped by one), not a memoized one. -/
theorem provider_fresh_instance_per_call
    (ov env : Option String) (st : Alloc) :
    (match getScraper ov env st with
     | .ok (inst, st') =>
         scrapeProviderClass (jsOrS ov (jsOrS env "basic")) = some inst.className
         ∧ inst.objectId = st.next ∧ st'.next = st.next + 1
     | .error e =>
         scrapeProviderClass (jsOrS ov (jsOrS env "basic")) = none
         ∧ e = "Unknown scrape provider: " ++ jsOrS ov (jsOrS env "basic"))
    ∧ (match getScraper ov env st with
       | .ok (inst, st') =>
           (match getScraper ov env st' with
            | .ok (inst2, _) => inst2.objectId = inst.objectId + 1
            | .error _ => False)
       | .error _ => True)
    ∧ (match getLLM ov env st with
       | .ok (inst, st') =>
           llmProviderClass (jsOrS ov (jsOrS env "openai")) = some inst.className
           ∧ inst.objectId = st.next ∧ st'.next = st.next + 1
       | .error e =>
           llmProviderClass (jsOrS ov (jsOrS env "openai")) = none
           ∧ e = "Unknown LLM provider: " ++ jsOrS ov (jsOrS env "openai"))
    ∧ (match getLLM ov env st with
       | .ok (inst, st') =>
           (match getLLM ov env st' with
            | .ok (inst2, _) => inst2.objectId = inst.objectId + 1
            | .error _ => False)
       | .error _ => True) := by
  refine ⟨?_, ?_, ?_, ?_⟩
  · unfold getScraper
    cases h : scrapeProviderClass (jsOrS ov (jsOrS env "basic")) <;> simp [h]
  · unfold getScraper
    cases h : scrapeProviderClass (jsOrS ov (jsOrS env "basic")) <;> simp [h]
  · unfold getLLM
    cases h : llmProviderClass (jsOrS ov (jsOrS env "openai")) <;> simp [h]
  · unfold getLLM
    cases h : llmProviderClass (jsOrS ov (jsOrS env "openai")) <;> simp [h]

/-- C10: the agent registry is a closed set of exactly the six agent types
`researcher`, `outreach`, `secretary`, `issue_scout`, `persuader`,
`donor_closer`: `getAgentRunner` succeeds exactly on the strings the
`agent_runs.agent_type` CHECK constraint admits, every other string —
including `lead_generator` — produces an `Unknown agent type` error, and the
CHECK constraint likewise rejects `lead_generator`. -/
theorem agent_registry_closed_set (t : String) :
    exceptOk (getAgentRunner t) = agentRunTypeCheck t
    ∧ (match getAgentRunner t with
       | .ok _ => True
       | .error m => m = "Unknown agent type: " ++ t)
    ∧ agents.map Prod.fst
        = ["researcher", "outreach", "secretary",
           "issue_scout", "persuader", "donor_closer"]
    ∧ getAgentRunner "lead_generator"
        = Except.error "Unknown agent type: lead_generator"
    ∧ agentRunTypeCheck "lead_generator" = false := by
  refine ⟨?_, ?_, by decide, rfl, by decide⟩
  · simp only [getAgentRunner, agents, agentRunTypeCheck, List.lookup]
    cases h1 : (t == "researcher") <;> cases h2 : (t == "outreach") <;>
      cases h3 : (t == "secretary") <;> cases h4 : (t == "issue_scout") <;>
      cases h5 : (t == "persuader") <;> cases h6 : (t == "donor_closer") <;>
      simp_all [exceptOk]
  · simp only [getAgentRunner, agents, List.lookup]
    cases h1 : (t == "researcher") <;> cases h2 : (t == "outreach") <;>
      cases h3 : (t == "secretary") <;> cases h4 : (t == "issue_scout") <;>
      cases h5 : (t == "persuader") <;> cases h6 : (t == "donor_closer") <;>
      simp_all

/-- C1 (amended): the extracted lead list is truncated to the EFFECTIVE
maximum `max_leads || 10`, so at most `max_leads || 10` Contact rows are
materialized and the run completes normally.  Because `0` is falsy in JS,
an input `max_leads` of `0` (like an omitted one) is replaced by the
default `10` — it does not yield zero contacts. -/
theorem lead_list_truncated_to_effective_max (p : Profile) (input : LeadInput)
    (scrape : String → Except String ScrapeResult)
    (search : String → Except String (List SearchItem))
    (parseJson : String → Option Json) (llmResponse : String) :
    (executePipeline p input scrape search parseJson llmResponse).contacts.length
      ≤ jsOrN input.max_leads 10
    ∧ (executePipeline p input scrape search parseJson llmResponse).leads_found
      ≤ jsOrN input.max_leads 10
    ∧ (executePipeline p input scrape search parseJson llmResponse).status
      = "completed" := by
  refine ⟨?_, ?_, rfl⟩ <;>
    · simp only [executePipeline, List.length_map]
      exact parseLeads_length_le parseJson llmResponse (jsOrN input.max_leads 10)

/-- C1 (counterexample): with `max_leads = 0` and a model response holding
one lead, the run materializes one contact (the claim's "zero materialized
contacts" is false): `max_leads || 10` turns `0` into the default `10`. -/
theorem max_leads_zero_counterexample :
    zeroLeadInput.max_leads = some 0
    ∧ (executePipeline bizProfile zeroLeadInput failScrape failSearch
        oneLeadParse "ignored").contacts.length = 1
    ∧ (executePipeline bizProfile zeroLeadInput failScrape failSearch
        oneLeadParse "ignored").status = "completed" := by
  refine ⟨rfl, ?_, rfl⟩
  simp only [executePipeline, List.length_map]
  rfl

/-- C2 (code bug): the recency→hint mapping is a pure function of the enum
with `1week ↦ "past week"`, `1month ↦ "past month"`, `3months/6months ↦
"2025"` and the `"2025"` default for unrecognized values — but for `any`
the table's own entry is the empty string, which is falsy in JS, so
`recencyTerms[recency] || '2025'` falls through to `"2025"` and a date
suffix IS appended to template and keyword queries, contradicting both the
claim and the table's evident intent. -/
theorem recency_any_appends_default_year :
    dateSuffix "1week" = "past week"
    ∧ dateSuffix "1month" = "past month"
    ∧ dateSuffix "3months" = "2025"
    ∧ dateSuffix "6months" = "2025"
    ∧ dateSuffix "unrecognized" = "2025"
    ∧ recencyTerms "any" = some ""
    ∧ dateSuffix "any" = "2025"
    ∧ (Query.mk none (some "plumber leak help 2025") "keyword")
        ∈ buildSearchQueries bizProfile (some ["plumber leak help"]) none "any" := by
  refine ⟨rfl, rfl, rfl, rfl, rfl, rfl, rfl, ?_⟩
  decide

/-- C3: mode selection is deterministic: the mode is `scraped` exactly when
at least one fetch task yielded kept content (`sources_successful > 0`) and
`ai_prospecting` when none did; no other mode exists.  A run whose query
list is empty has zero successes, so it falls through to `ai_prospecting`. -/
theorem mode_selection_deterministic (p : Profile) (input : LeadInput)
    (scrape : String → Except String ScrapeResult)
    (search : String → Except String (List SearchItem))
    (parseJson : String → Option Json) (llmResponse : String) :
    ((executePipeline p input scrape search parseJson llmResponse).mode = "scraped"
      ∨ (executePipeline p input scrape search parseJson llmResponse).mode
          = "ai_prospecting")
    ∧ (executePipeline p input scrape search parseJson llmResponse).mode
        = (if (executePipeline p input scrape search parseJson llmResponse).sources_successful
              = 0
           then "ai_prospecting" else "scraped") := by
  have hs := scrapeLoop_successes scrape search (pipelineQueries p input)
  simp only [executePipeline]
  cases hL : (scrapeLoop scrape search (pipelineQueries p input)).1 with
  | nil =>
      rw [hL] at hs
      simp [hL, hs]
  | cons a l =>
      rw [hL] at hs
      simp [hL, hs]

/-- C4: Stage D response handling trims the model response, strips a
code-fence wrapper when the text starts with a fence, and parses the result
as a JSON array; whenever the parse throws or yields a non-array value,
`generateLeads` returns the empty lead list (it never raises for that
cause), no contact is materialized, and the run still ends `completed`. -/
theorem parse_failure_yields_empty_and_completes (p : Profile)
    (input : LeadInput) (scrape : String → Except String ScrapeResult)
    (search : String → Except String (List SearchItem))
    (parseJson : String → Option Json) (llmResponse : String)
    (h : ∀ leads, parseJson (cleanResponse llmResponse) ≠ some (Json.arr leads)) :
    (executePipeline p input scrape search parseJson llmResponse).contacts = []
    ∧ (executePipeline p input scrape search parseJson llmResponse).leads_found = 0
    ∧ (executePipeline p input scrape search parseJson llmResponse).status
        = "completed" := by
  have hl : parseLeads parseJson llmResponse (jsOrN input.max_leads 10) = [] := by
    unfold parseLeads
    cases hj : parseJson (cleanResponse llmResponse) with
    | none => rfl
    | some j =>
      cases j with
      | arr leads => exact absurd hj (h leads)
      | nonArray => rfl
  refine ⟨?_, ?_, rfl⟩ <;>
    simp only [executePipeline, hl, List.map_nil, List.length_nil]

/-- C4 (witness): a model response that is not JSON at all (`JSON.parse`
throws on every input) yields no contacts and a `completed` run. -/
theorem parse_failure_witness :
    (executePipeline bizProfile zeroLeadInput failScrape failSearch
        noneParse "this is not json").contacts = []
    ∧ (executePipeline bizProfile zeroLeadInput failScrape failSearch
        noneParse "this is not json").leads_found = 0
    ∧ (executePipeline bizProfile zeroLeadInput failScrape failSearch
        noneParse "this is not json").status = "completed" :=
  parse_failure_yields_empty_and_completes bizProfile zeroLeadInput failScrape
    failSearch noneParse "this is not json"
    (fun leads hcontra => by simp [noneParse] at hcontra)

/-- C5: Stage B isolates every fetch task: the error list is exactly the
labelled messages of the throwing tasks, in order (`label.take 60 ++ ": " ++
message`), the kept content is exactly the concatenation of what each
non-throwing task pushes (so one task's exception never aborts another task
or the pipeline — the run still completes); and the `scrape_errors` event is
emitted exactly once when any task failed — never otherwise — carrying the
first three labelled errors joined by " | ". -/
theorem scrape_task_isolation_and_error_event (p : Profile) (input : LeadInput)
    (scrape : String → Except String ScrapeResult)
    (search : String → Except String (List SearchItem))
    (parseJson : String → Option Json) (llmResponse : String) :
    (executePipeline p input scrape search parseJson llmResponse).scrapeErrors
      = (pipelineQueries p input).filterMap (fun q =>
          match runTask scrape search q with
          | .ok _ => none
          | .error m => some (taskLabel q ++ ": " ++ m))
    ∧ (scrapeLoop scrape search (pipelineQueries p input)).1
      = (pipelineQueries p input).flatMap (fun q =>
          match runTask scrape search q with
          | .ok (items, _) => items
          | .error _ => [])
    ∧ (executePipeline p input scrape search parseJson llmResponse).status
        = "completed"
    ∧ (executePipeline p input scrape search parseJson llmResponse).events.filter
        (fun e => e.eventType == "scrape_errors")
      = (if (executePipeline p input scrape search parseJson
              llmResponse).scrapeErrors.isEmpty
         then []
         else [{ eventType := "scrape_errors",
                 title := toString (executePipeline p input scrape search parseJson
                     llmResponse).scrapeErrors.length
                   ++ " source(s) failed to scrape",
                 detail := some (String.intercalate " | "
                   ((executePipeline p input scrape search parseJson
                       llmResponse).scrapeErrors.take 3)) }]) := by
  refine ⟨?_, scrapeLoop_content scrape search (pipelineQueries p input), rfl, ?_⟩
  · simp only [executePipeline]
    exact scrapeLoop_errors scrape search (pipelineQueries p input)
  · simp only [executePipeline]
    by_cases hE : (scrapeLoop scrape search (pipelineQueries p input)).2.2.isEmpty <;>
      simp [hE, List.filter_append, List.filter_map, Function.comp,
        List.filter_eq_nil_iff]

/-- C6: every contact the pipeline materializes carries `voter_intent =
"unknown"` and `donor_intent = "none"` (in particular a political profile's
contacts are never promoted past "unknown" on discovery), and on a
non-political (business) profile each contact comes from an extracted lead
whose `lead_status` is `warm` exactly when the lead's relevance score is at
least 70 and `cold` otherwise. -/
theorem contact_status_fields_by_mode (p : Profile) (input : LeadInput)
    (scrape : String → Except String ScrapeResult)
    (search : String → Except String (List SearchItem))
    (parseJson : String → Option Json) (llmResponse : String) (c : Contact)
    (hc : c ∈ (executePipeline p input scrape search parseJson llmResponse).contacts) :
    c.voter_intent = "unknown"
    ∧ c.donor_intent = "none"
    ∧ (p.mode ≠ "political" →
        ∃ lead ∈ parseLeads parseJson llmResponse (jsOrN input.max_leads 10),
          c = makeContact p
                (executePipeline p input scrape search parseJson llmResponse).mode lead
          ∧ c.lead_status
              = (if jsGe lead.relevance_score 70 then "warm" else "cold")) := by
  simp only [executePipeline, List.mem_map] at hc
  obtain ⟨lead, hlead, hmk⟩ := hc
  refine ⟨?_, ?_, ?_⟩
  · rw [← hmk]; simp [makeContact]
  · rw [← hmk]; simp [makeContact]
  · intro hmode
    refine ⟨lead, hlead, ?_, ?_⟩
    · rw [← hmk]
      simp only [executePipeline]
    · have hpol : (p.mode == "political") = false := by
        simp [hmode]
      rw [← hmk]
      simp [makeContact, hpol]

/-- C6 (witness): the business-profile run with one extracted lead of score
80 materializes a contact with `voter_intent = "unknown"`, `donor_intent =
"none"` and `lead_status = "warm"`. -/
theorem contact_status_fields_witness :
    cexContact ∈ (executePipeline bizProfile zeroLeadInput failScrape failSearch
        oneLeadParse "ignored").contacts
    ∧ cexContact.voter_intent = "unknown"
    ∧ cexContact.donor_intent = "none"
    ∧ ∃ lead ∈ parseLeads oneLeadParse "ignored" (jsOrN zeroLeadInput.max_leads 10),
        cexContact = makeContact bizProfile
          (executePipeline bizProfile zeroLeadInput failScrape failSearch
            oneLeadParse "ignored").mode lead
        ∧ cexContact.lead_status
            = (if jsGe lead.relevance_score 70 then "warm" else "cold") := by
  have hm : cexContact ∈ (executePipeline bizProfile zeroLeadInput failScrape
      failSearch oneLeadParse "ignored").contacts := by decide
  have h := contact_status_fields_by_mode bizProfile zeroLeadInput failScrape
    failSearch oneLeadParse "ignored" cexContact hm
  exact ⟨hm, h.1, h.2.1, h.2.2 (by decide)⟩

/-- C7: Stage A deduplicates the constructed task list by identifying key
(`url || search`), first occurrence wins: the built query list equals the
spec-side reference (keep each first occurrence of a key, drop every later
task with an equal key, preserve construction order), and it is a sublist
of the constructed list (distinct-key tasks are all retained in order). -/
theorem dedup_first_occurrence_wins (p : Profile)
    (keywords sources : Option (List String)) (recency : String) :
    buildSearchQueries p keywords sources recency
      = specDedupFirstWins (rawSearchQueries p keywords sources recency)
    ∧ (buildSearchQueries p keywords sources recency).Sublist
        (rawSearchQueries p keywords sources recency) := by
  constructor
  · unfold buildSearchQueries
    rw [dedupGo_eq_spec]
    congr 1
    simp
  · exact dedupGo_sublist _ _

end UAE
